import Mathlib

/-!
Shallow embedding of the freertos-rust synchronization / task-lifecycle
layer (src/base.rs, src/units.rs, src/isr.rs, src/critical.rs,
src/mutex.rs, src/queue.rs, src/task.rs, src/timers.rs), together with
theorems settling the specification claims.

The kernel (FreeRTOS itself) is an external collaborator; every call the
wrapper layer makes into the kernel glue surface (src/glue.rs) is
recorded as an `Event`.  Kernel *responses* (a take succeeding, a queue
having space, task creation succeeding) are supplied as explicit
parameters, since they are decided by the external kernel, not by this
code.  Heap allocation/free of the boxed closures (Box::new /
Box::from_raw / drop) is likewise recorded as events, so that
"freed exactly once" claims become statements about event traces.
-/

/-- Error enum from src/base.rs (`FreeRtosError`). -/
inductive FreeRtosError where
  | OutOfMemory
  | QueueSendTimeout
  | QueueReceiveTimeout
  | MutexTimeout
  | Timeout
  | QueueFull
  | StringConversionError
  | TaskNotFound
  | InvalidQueueSize
  | ProcessorHasShutDown
deriving DecidableEq, Repr

/-- The observable actions of the wrapper layer: calls into the kernel
glue surface (src/glue.rs), plus heap-lifetime events for boxed
closures/callbacks.  Handles and pointers are abstracted as `Nat`.
`taskNotifyTake` / `taskNotifyWait` carry no task handle, mirroring
`glue::task_notify_take` / `glue::task_notify_wait`, which call
`ulTaskGenericNotifyTake` / `xTaskGenericNotifyWait`: kernel operations
that always act on the currently executing task. -/
inductive Event where
  | createMutex
  | createRecursiveMutex
  | takeMutex (h wait : Nat)
  | giveMutex (h : Nat)
  | giveMutexIsr (h : Nat)
  | takeRecursiveMutex (h wait : Nat)
  | giveRecursiveMutex (h : Nat)
  | deleteSemaphore (h : Nat)
  | queueCreate (len itemSize : Nat)
  | queueSend (h wait : Nat)
  | queueSendIsr (h : Nat)
  | queueReceive (h wait : Nat)
  | queueDelete (h : Nat)
  | taskYieldFromIsr
  | taskNotifyTake (clearCount : Bool) (wait : Nat)
  | taskNotifyWait (clearEnter clearExit wait : Nat)
  | createTask (argPtr : Nat)
  | deleteTaskSelf
  | timerCreate (period : Nat) (autoReload : Bool) (timerId : Nat)
  | timerDelete (h blockTime : Nat)
  | enterCritical
  | exitCritical (prev : Nat)
  | allocHeap (ptr : Nat)
  | freeHeap (ptr : Nat)
  | invokeClosure (ptr : Nat)
deriving DecidableEq, Repr

/-! ## Time units (src/units.rs, src/glue.rs)

`TickType` is `u32` on the reference platform; arithmetic is carried out
in `Nat` with the 32-bit bound made explicit where it matters.
`configTICK_RATE_HZ` is platform configuration, so it is a parameter. -/

/-- `pub const TICK_PERIOD_MS: u32 = 1000 / TICK_RATE_HZ;` (src/glue.rs:8),
integer division. -/
def TICK_PERIOD_MS (tickRateHz : Nat) : Nat := 1000 / tickRateHz

/-- `Ticks::milliseconds(ms)` (src/units.rs:28-30): `ms / TICK_PERIOD_MS`,
returning the raw tick count. -/
def Ticks.milliseconds (tickRateHz ms : Nat) : Nat :=
  ms / TICK_PERIOD_MS tickRateHz

/-- `Ticks::to_milliseconds(&self)` (src/units.rs:44-46):
`self.ticks * TICK_PERIOD_MS`, as u32 arithmetic (mod 2^32). -/
def Ticks.to_milliseconds (tickRateHz ticks : Nat) : Nat :=
  (ticks * TICK_PERIOD_MS tickRateHz) % 2 ^ 32

/-- `Ticks::zero()` (src/units.rs:40-42). -/
def Ticks.zero : Nat := 0

/-! ## Exclusive data cell (src/critical.rs) -/

/-- `CriticalSection::enter` (src/critical.rs:9-13): calls
`glue::enter_critical`, keeps the returned previous state.  The previous
state the kernel reports is the parameter; the result is the trace of
glue calls together with the constructed guard (its saved state). -/
def CriticalSection.enter (previous_state : Nat) : List Event × Nat :=
  ([Event.enterCritical], previous_state)

/-- `CriticalSection::drop` (src/critical.rs:16-22): restores the saved
state via `glue::exit_critical`. -/
def CriticalSection.drop (saved : Nat) : List Event :=
  [Event.exitCritical saved]

/-- `ExclusiveData::lock` (src/critical.rs:40-45): enters a critical
section and returns `Ok` with a guard holding the saved state.  There is
no error branch in the source. -/
def ExclusiveData.lock (previous_state : Nat) :
    List Event × Except FreeRtosError Nat :=
  ((CriticalSection.enter previous_state).1,
    Except.ok (CriticalSection.enter previous_state).2)

/-- `ExclusiveData::lock_from_isr` (src/critical.rs:47-52): ignores the
interrupt context and returns `Ok` with a guard; no glue call is made
and there is no error branch in the source. -/
def ExclusiveData.lock_from_isr (_context : Nat) :
    List Event × Except FreeRtosError Unit :=
  ([], Except.ok ())

/-! ## Mutex (src/mutex.rs)

`BasicMutex<T, M>` is parameterised by the lock flavour `M`
(`Normal` or `Recursive`); both store a `QueueHandle` and implement the
`Lockable` trait.  The flavour is modelled by `MutexKind`. -/

inductive MutexKind where
  | normal
  | recursive
deriving DecidableEq, Repr

/-- `Lockable::create`: `Normal::create` (src/mutex.rs:138-143) calls
`glue::create_mutex`; `Recursive::create` (src/mutex.rs:175-180) calls
`glue::create_recursive_mutex`. -/
def Lockable.createEvent : MutexKind → Event
  | MutexKind.normal => Event.createMutex
  | MutexKind.recursive => Event.createRecursiveMutex

/-- `Lockable::take`: `Normal::take` (src/mutex.rs:145-151) calls
`glue::take_mutex`; `Recursive::take` (src/mutex.rs:182-188) calls
`glue::take_recursive_mutex`. -/
def Lockable.takeEvent : MutexKind → Nat → Nat → Event
  | MutexKind.normal, h, w => Event.takeMutex h w
  | MutexKind.recursive, h, w => Event.takeRecursiveMutex h w

/-- `Lockable::give`: `Normal::give` (src/mutex.rs:153-157) calls
`glue::give_mutex`, and `Recursive::give` (src/mutex.rs:190-194) ALSO
calls `glue::give_mutex` — not `glue::give_recursive_mutex`. -/
def Lockable.giveEvent : MutexKind → Nat → Event
  | MutexKind.normal, h => Event.giveMutex h
  | MutexKind.recursive, h => Event.giveMutex h

/-- `Normal::drop` (src/mutex.rs:160-164) and `Recursive::drop`
(src/mutex.rs:197-201): both call `glue::delete_semaphore`. -/
def Lockable.dropTrace (h : Nat) : List Event :=
  [Event.deleteSemaphore h]

/-- `BasicMutex::new` for either flavour (src/mutex.rs:33-51): creates
the kernel mutex; `OutOfMemory` when the kernel returns no handle. -/
def BasicMutex.new (k : MutexKind) (kernelCreateOk : Bool) :
    List Event × Except FreeRtosError Unit :=
  ([Lockable.createEvent k],
    if kernelCreateOk then Except.ok () else Except.error FreeRtosError.OutOfMemory)

/-- `BasicMutex::lock` (src/mutex.rs:58-65): `self.mutex.take(max_wait)?`,
then on success a `MutexGuard` is returned.  Both `Normal::take` and
`Recursive::take` map a kernel `false` to `MutexTimeout`.  The kernel
outcome of the take is the parameter `kernelTakeOk`. -/
def BasicMutex.lock (k : MutexKind) (h wait : Nat) (kernelTakeOk : Bool) :
    List Event × Except FreeRtosError Unit :=
  ([Lockable.takeEvent k h wait],
    if kernelTakeOk then Except.ok () else Except.error FreeRtosError.MutexTimeout)

/-- `MutexGuard::drop` (src/mutex.rs:117-124): `self.mutex.give()`. -/
def MutexGuard.drop (k : MutexKind) (h : Nat) : List Event :=
  [Lockable.giveEvent k h]

/-- `BasicMutex::into_inner` (src/mutex.rs:68-85): reads out the `mutex`
and `data` fields, `mem::forget(self)` (so the wrapper's own drop never
runs), then `drop(mutex)` (one `delete_semaphore`), then returns the
contained data.  All emitted events precede the returned value. -/
def BasicMutex.into_inner {T : Type} (h : Nat) (v : T) : List Event × T :=
  (Lockable.dropTrace h, v)

/-- Kernel give operations (normal or recursive, task or ISR flavour). -/
def Event.isGive : Event → Bool
  | Event.giveMutex _ => true
  | Event.giveMutexIsr _ => true
  | Event.giveRecursiveMutex _ => true
  | _ => false

/-! ## Interrupt context (src/isr.rs) -/

/-- `InterruptContext::new` (src/isr.rs:14-18):
`x_higher_priority_task_woken` starts at 0. -/
def InterruptContext.new : Nat := 0

/-- `InterruptContext::get_task_field_mut` (src/isr.rs:20-22): returns a
pointer to the flag; performs no kernel call itself. -/
def InterruptContext.get_task_field_mut : List Event := []

/-- A kernel ISR operation writing through the
`x_higher_priority_task_woken` pointer: FreeRTOS sets the flag to
`pdTRUE` (1) when a higher-priority task was woken, and leaves it
unchanged otherwise. -/
def kernelWriteWoken (flag : Nat) (woken : Bool) : Nat :=
  if woken then 1 else flag

/-- `InterruptContext::drop` (src/isr.rs:25-33): calls
`glue::task_yield_from_isr` exactly when the flag equals 1. -/
def InterruptContext.drop (flag : Nat) : List Event :=
  if flag = 1 then [Event.taskYieldFromIsr] else []

/-- The flag after a handler performs a sequence of kernel ISR
operations, each reporting whether it woke a higher-priority task. -/
def InterruptContext.applyAll (flag : Nat) (ws : List Bool) : Nat :=
  ws.foldl kernelWriteWoken flag

/-! ## Queue (src/queue.rs) -/

/-- `Queue::new` (src/queue.rs:22-30). -/
def Queue.new (len itemSize : Nat) (kernelCreateOk : Bool) :
    List Event × Except FreeRtosError Unit :=
  ([Event.queueCreate len itemSize],
    if kernelCreateOk then Except.ok () else Except.error FreeRtosError.OutOfMemory)

/-- `Queue::send` (src/queue.rs:33-45): one `glue::queue_send`; kernel
`true` (item enqueued within the wait bound) maps to `Ok(())`, kernel
`false` to `QueueSendTimeout`. -/
def Queue.send (h wait : Nat) (kernelSendOk : Bool) :
    List Event × Except FreeRtosError Unit :=
  ([Event.queueSend h wait],
    if kernelSendOk then Except.ok () else Except.error FreeRtosError.QueueSendTimeout)

/-- `Queue::receive` (src/queue.rs:67-80): one `glue::queue_receive`
filling a buffer; kernel `true` yields the received item, kernel `false`
maps to `QueueReceiveTimeout`.  The kernel outcome is `some item` or
`none`. -/
def Queue.receive {T : Type} (h wait : Nat) (kernelItem : Option T) :
    List Event × Except FreeRtosError T :=
  ([Event.queueReceive h wait],
    match kernelItem with
    | some x => Except.ok x
    | none => Except.error FreeRtosError.QueueReceiveTimeout)

/-- `Queue::send_from_isr` (src/queue.rs:47-64): one
`glue::queue_send_isr` (the ISR kernel primitive takes no wait-time
argument at all, hence no wait field in the event); the kernel writes
the woken flag through `context.get_task_field_mut()` and reports
acceptance.  Kernel `false` maps to `QueueFull`.  Returns
(events, updated context flag, result). -/
def Queue.send_from_isr (h flag : Nat) (kernelAccepted kernelWoken : Bool) :
    List Event × Nat × Except FreeRtosError Unit :=
  ([Event.queueSendIsr h], kernelWriteWoken flag kernelWoken,
    if kernelAccepted then Except.ok () else Except.error FreeRtosError.QueueFull)

/-! ## Task spawn and notifications (src/task.rs) -/

/-- `Task::spawn` (src/task.rs:182-217): `Box::new(f)` allocates the
closure; its raw pointer is passed to `glue::create_task`.  On kernel
success, `mem::forget(f)` transfers ownership to the new task (no free)
and `Ok(Task)` is returned; on kernel failure `Err(OutOfMemory)` is
returned and the box goes out of scope, freeing the closure before
`spawn` returns.  `ptr` abstracts the closure allocation. -/
def RtosTask.spawn (ptr : Nat) (kernelCreateOk : Bool) :
    List Event × Except FreeRtosError Unit :=
  if kernelCreateOk then
    ([Event.allocHeap ptr, Event.createTask ptr], Except.ok ())
  else
    ([Event.allocHeap ptr, Event.createTask ptr, Event.freeHeap ptr],
      Except.error FreeRtosError.OutOfMemory)

/-- `Task::boxed_thread_start` (src/task.rs:219-225): the entry
trampoline of the spawned task.  `Box::from_raw(arg)` reclaims the
closure, `b()` invokes it (consuming the box and freeing the
allocation), then `glue::delete_task(None)` deletes the task itself. -/
def RtosTask.boxed_thread_start (ptr : Nat) : List Event :=
  [Event.invokeClosure ptr, Event.freeHeap ptr, Event.deleteTaskSelf]

/-- The closure's whole-lifetime event trace: the spawn call itself,
followed by the trampoline run when and only when the kernel scheduled
the task. -/
def RtosTask.spawnLifetime (ptr : Nat) (kernelCreateOk : Bool) : List Event :=
  (RtosTask.spawn ptr kernelCreateOk).1 ++
    (if kernelCreateOk then RtosTask.boxed_thread_start ptr else [])

/-- `glue::task_notify_take` (src/glue.rs:160-170): wraps
`ulTaskGenericNotifyTake`, which acts on the calling task; it takes no
task-handle argument.  Returns the kernel-reported previous/decremented
notification value. -/
def glueTaskNotifyTake (clearCount : Bool) (wait kernelValue : Nat) :
    List Event × Nat :=
  ([Event.taskNotifyTake clearCount wait], kernelValue)

/-- `Task::take_notification` (src/task.rs:276-278): forwards directly
to `glue::task_notify_take(clear, wait)`.  The receiver task handle
`task_handle` does not occur in the body. -/
def RtosTask.take_notification (_task_handle : Nat) (clear : Bool)
    (wait kernelValue : Nat) : List Event × Nat :=
  glueTaskNotifyTake clear wait kernelValue

/-- `Task::wait_for_notification` (src/task.rs:281-300): calls
`glue::task_notify_wait` (wrapping `xTaskGenericNotifyWait`, which acts
on the calling task and takes no task-handle argument); kernel `true`
yields the written notification value, kernel `false` maps to
`Timeout`.  The receiver task handle `task_handle` does not occur in
the body. -/
def RtosTask.wait_for_notification (_task_handle : Nat) (clear_bits_enter clear_bits_exit
    wait : Nat) (kernelResult : Option Nat) :
    List Event × Except FreeRtosError Nat :=
  ([Event.taskNotifyWait clear_bits_enter clear_bits_exit wait],
    match kernelResult with
    | some v => Except.ok v
    | none => Except.error FreeRtosError.Timeout)

/-! ## Timer (src/timers.rs) -/

/-- A `Timer` value (src/timers.rs:16-19): kernel handle plus
`destructor: Option<fn(usize)>`.  The destructor is present iff the
timer was created by `spawn` and not detached; `timerId` is the
callback pointer the kernel stores for the timer (set at creation,
read back by `glue::timer_get_id`). -/
structure Timer where
  handle : Nat
  timerId : Nat
  destructor : Bool
deriving DecidableEq, Repr

/-- `Timer::get_id` (src/timers.rs:172-174): `glue::timer_get_id`
returns the stored timer id; always `Ok`. -/
def Timer.get_id (t : Timer) : Except FreeRtosError Nat :=
  Except.ok t.timerId

/-- `Timer::spawn` (src/timers.rs:74-105): `Box::new(callback)`
allocates the callback (`ptr`), `glue::timer_create` registers it with
`ptr` stored as the kernel timer id.  On kernel success `mem::forget(f)`
keeps the allocation alive and the `Timer` carries
`destructor: Some(timer_destructor::<F>)`; on failure the box is freed
and `OutOfMemory` returned. -/
def Timer.spawn (period : Nat) (autoReload : Bool) (ptr h : Nat)
    (kernelCreateOk : Bool) : List Event × Except FreeRtosError Timer :=
  if kernelCreateOk then
    ([Event.allocHeap ptr, Event.timerCreate period autoReload ptr],
      Except.ok ⟨h, ptr, true⟩)
  else
    ([Event.allocHeap ptr, Event.timerCreate period autoReload ptr,
        Event.freeHeap ptr],
      Except.error FreeRtosError.OutOfMemory)

/-- `Timer::detach` (src/timers.rs:168-170): sets `destructor = None`
(the subsequent drop of `self` then does nothing, see `Timer.drop`). -/
def Timer.detach (t : Timer) : Timer :=
  ⟨t.handle, t.timerId, false⟩

/-- `Timer::drop` (src/timers.rs:177-191): if the destructor is present,
read the callback pointer via `get_id`, free the callback allocation,
then `glue::timer_delete(handle, Ticks::milliseconds(1000).ticks)`;
otherwise do nothing.  `tickRateHz` fixes the tick conversion of the
hard-coded 1000 ms block time. -/
def Timer.drop (tickRateHz : Nat) (t : Timer) : List Event :=
  if t.destructor then
    [Event.freeHeap t.timerId,
      Event.timerDelete t.handle (Ticks.milliseconds tickRateHz 1000)]
  else []

/-- `Timer::timer_callback` (src/timers.rs:107-117): the kernel fire
trampoline reconstructs a `Timer` with `destructor: None`, reads the
callback pointer via `get_id` and invokes the callback; the
reconstructed `Timer` is dropped with no destructor, so the trampoline
never frees or deletes anything beyond invoking the callback. -/
def Timer.timer_callback (tickRateHz h ptr : Nat) : List Event :=
  [Event.invokeClosure ptr] ++ Timer.drop tickRateHz ⟨h, ptr, false⟩

/-! ## Theorems settling the claims -/

/-- Helper: the deferred-yield flag after a sequence of kernel ISR
writes is 1 exactly when some write reported a woken task (starting
from an arbitrary flag, it is 1 if some write woke, else unchanged). -/
theorem foldl_kernelWriteWoken (flag : Nat) (ws : List Bool) :
    ws.foldl kernelWriteWoken flag = if ws.any id then 1 else flag := by
  induction ws generalizing flag with
  | nil => simp
  | cons w rest ih => cases w <;> simp [kernelWriteWoken, ih]

/-- C1: the claim says every release of a recursive mutex (MutexGuard
drop for the Recursive variant) invokes the kernel's recursive give.
The source contradicts it: `Recursive::give` (src/mutex.rs:190-194)
calls `glue::give_mutex` (`xQueueGenericSend`), not
`glue::give_recursive_mutex` (`xQueueGiveMutexRecursive`, defined at
src/glue.rs:92-95 but never called anywhere).  Evaluated at handle 0:
the recursive guard's drop trace is one plain give and contains no
recursive give, so the kernel's recursion count is never decremented. -/
theorem C1_recursive_guard_drop_is_plain_give :
    MutexGuard.drop MutexKind.recursive 0 = [Event.giveMutex 0] ∧
    (MutexGuard.drop MutexKind.recursive 0).count (Event.giveRecursiveMutex 0) = 0 := by
  decide

/-- C2: dropping a MutexGuard (either variant) performs exactly one
kernel give on the underlying mutex handle, and no other operation of
the mutex wrapper (create, lock, into_inner) emits any kernel give. -/
theorem C2_mutex_guard_drop_gives_exactly_once (k : MutexKind) (h w : Nat)
    (kernelOk : Bool) {T : Type} (v : T) :
    MutexGuard.drop k h = [Lockable.giveEvent k h] ∧
    (MutexGuard.drop k h).countP Event.isGive = 1 ∧
    ((BasicMutex.new k kernelOk).1).countP Event.isGive = 0 ∧
    ((BasicMutex.lock k h w kernelOk).1).countP Event.isGive = 0 ∧
    ((BasicMutex.into_inner h v).1).countP Event.isGive = 0 := by
  cases k <;>
    simp [MutexGuard.drop, Lockable.giveEvent, BasicMutex.new, BasicMutex.lock,
      BasicMutex.into_inner, Lockable.createEvent, Lockable.takeEvent,
      Lockable.dropTrace, Event.isGive, List.countP_cons]

/-- C3: Queue::send returns Ok(()) iff the kernel enqueued within the
timeout and Err(QueueSendTimeout) otherwise; Queue::receive returns
Ok(item) iff the kernel dequeued an item and Err(QueueReceiveTimeout)
otherwise; Queue::send_from_isr (whose kernel primitive takes no wait
argument) returns Err(QueueFull) exactly when the kernel reports no
space, and records the kernel's woken flag into the supplied interrupt
context. -/
theorem C3_queue_result_mapping {T : Type} (h w flag : Nat)
    (kernelSendOk : Bool) (kernelItem : Option T)
    (kernelAccepted kernelWoken : Bool) :
    ((Queue.send h w kernelSendOk).2 = Except.ok () ↔ kernelSendOk = true) ∧
    ((Queue.send h w kernelSendOk).2
        = Except.error FreeRtosError.QueueSendTimeout ↔ kernelSendOk = false) ∧
    (∀ x : T, (Queue.receive h w kernelItem).2 = Except.ok x
        ↔ kernelItem = some x) ∧
    ((Queue.receive h w kernelItem).2
        = Except.error FreeRtosError.QueueReceiveTimeout ↔ kernelItem = none) ∧
    ((Queue.send_from_isr h flag kernelAccepted kernelWoken).2.2
        = Except.ok () ↔ kernelAccepted = true) ∧
    ((Queue.send_from_isr h flag kernelAccepted kernelWoken).2.2
        = Except.error FreeRtosError.QueueFull ↔ kernelAccepted = false) ∧
    (Queue.send_from_isr h flag kernelAccepted kernelWoken).2.1
        = kernelWriteWoken flag kernelWoken := by
  refine ⟨?_, ?_, ?_, ?_, ?_, ?_, ?_⟩
  · cases kernelSendOk <;> simp [Queue.send]
  · cases kernelSendOk <;> simp [Queue.send]
  · intro x
    cases kernelItem <;> simp [Queue.receive]
  · cases kernelItem <;> simp [Queue.receive]
  · cases kernelAccepted <;> simp [Queue.send_from_isr]
  · cases kernelAccepted <;> simp [Queue.send_from_isr]
  · simp [Queue.send_from_isr]

/-- C4: for every u32 value m, Ticks::milliseconds(m).to_milliseconds()
equals m rounded down to the nearest multiple of the tick period
TICK_PERIOD_MS = 1000 / tick_rate_hz (integer truncation throughout). -/
theorem C4_ticks_roundtrip (tickRateHz m : Nat) (hm : m < 2 ^ 32) :
    Ticks.to_milliseconds tickRateHz (Ticks.milliseconds tickRateHz m)
      = (m / TICK_PERIOD_MS tickRateHz) * TICK_PERIOD_MS tickRateHz := by
  unfold Ticks.to_milliseconds Ticks.milliseconds
  exact Nat.mod_eq_of_lt (lt_of_le_of_lt (Nat.div_mul_le_self m _) hm)

/-- Witness for C4 at tick_rate_hz = 100 (tick period 10 ms), m = 7:
7 ms truncates to 0 ticks, which converts back to 0 = (7 / 10) * 10. -/
theorem C4_ticks_roundtrip_witness :
    (7 : Nat) < 2 ^ 32 ∧
    Ticks.to_milliseconds 100 (Ticks.milliseconds 100 7)
      = (7 / TICK_PERIOD_MS 100) * TICK_PERIOD_MS 100 :=
  ⟨by decide, C4_ticks_roundtrip 100 7 (by decide)⟩

/-- C5: across the closure's whole lifetime the heap allocation is
freed exactly once on every path: on kernel task-creation failure spawn
returns Err(OutOfMemory) with the free emitted before returning; on
success spawn itself frees nothing (ownership is transferred) and the
entry trampoline is the unique point that invokes the closure, frees
it, and deletes the task. -/
theorem C5_spawn_closure_freed_exactly_once (ptr : Nat) :
    (∀ kernelCreateOk,
        (RtosTask.spawnLifetime ptr kernelCreateOk).count (Event.freeHeap ptr) = 1) ∧
    RtosTask.spawn ptr false
      = ([Event.allocHeap ptr, Event.createTask ptr, Event.freeHeap ptr],
          Except.error FreeRtosError.OutOfMemory) ∧
    (RtosTask.spawn ptr true).2 = Except.ok () ∧
    ((RtosTask.spawn ptr true).1).count (Event.freeHeap ptr) = 0 ∧
    RtosTask.boxed_thread_start ptr
      = [Event.invokeClosure ptr, Event.freeHeap ptr, Event.deleteTaskSelf] := by
  refine ⟨?_, ?_, ?_, ?_, ?_⟩
  · intro kernelCreateOk
    cases kernelCreateOk <;>
      simp [RtosTask.spawnLifetime, RtosTask.spawn, RtosTask.boxed_thread_start,
        List.count_cons, List.count_append]
  · simp [RtosTask.spawn]
  · simp [RtosTask.spawn]
  · simp [RtosTask.spawn, List.count_cons]
  · simp [RtosTask.boxed_thread_start]

/-- C6: a fresh InterruptContext has the woken flag cleared; after any
sequence of kernel ISR operations performed with the context, drop
issues the deferred yield exactly when some operation set the flag, and
issues at most one yield in any case; neither the context's other
operations (new, get_task_field_mut) nor an ISR kernel call itself
(queue send_from_isr) ever emits a yield. -/
theorem C6_interrupt_context_yields_once_at_drop (ws : List Bool) :
    InterruptContext.new = 0 ∧
    InterruptContext.drop (InterruptContext.applyAll InterruptContext.new ws)
      = (if ws.any id then [Event.taskYieldFromIsr] else []) ∧
    (∀ flag, (InterruptContext.drop flag).length ≤ 1) ∧
    InterruptContext.get_task_field_mut = [] ∧
    (∀ h flag a w,
      ((Queue.send_from_isr h flag a w).1).count Event.taskYieldFromIsr = 0) := by
  refine ⟨rfl, ?_, ?_, rfl, ?_⟩
  · cases hws : ws.any id <;>
      simp [InterruptContext.applyAll, InterruptContext.new,
        foldl_kernelWriteWoken, hws, InterruptContext.drop]
  · intro flag
    unfold InterruptContext.drop
    split <;> simp
  · intro h flag a w
    simp [Queue.send_from_isr, List.count_cons]

/-- C7: into_inner returns exactly the contained value, emits exactly
one kernel delete of the mutex handle (the events all precede the
returned value by construction), and emits no give and no second
teardown: the wrapper's own drop is forgotten and only the contained
lock object's drop runs. -/
theorem C7_into_inner_returns_value_deletes_once {T : Type} (h : Nat) (v : T) :
    (BasicMutex.into_inner h v).2 = v ∧
    (BasicMutex.into_inner h v).1 = [Event.deleteSemaphore h] ∧
    ((BasicMutex.into_inner h v).1).count (Event.deleteSemaphore h) = 1 ∧
    ((BasicMutex.into_inner h v).1).countP Event.isGive = 0 := by
  simp [BasicMutex.into_inner, Lockable.dropTrace, Event.isGive,
    List.countP_cons, List.count_cons]

/-- C8: a Timer created with a live destructor and dropped (including
immediately after create, before any fire) frees the callback
allocation exactly once and issues the kernel timer delete exactly
once; after detach, drop performs neither; the kernel fire trampoline
only invokes the callback and never frees or deletes. -/
theorem C8_timer_drop_frees_and_deletes_once (tickRateHz period h ptr : Nat)
    (autoReload : Bool) :
    (Timer.spawn period autoReload ptr h true).2 = Except.ok ⟨h, ptr, true⟩ ∧
    Timer.drop tickRateHz ⟨h, ptr, true⟩
      = [Event.freeHeap ptr,
          Event.timerDelete h (Ticks.milliseconds tickRateHz 1000)] ∧
    ((Timer.spawn period autoReload ptr h true).1
        ++ Timer.drop tickRateHz ⟨h, ptr, true⟩).count (Event.freeHeap ptr) = 1 ∧
    ((Timer.spawn period autoReload ptr h true).1
        ++ Timer.drop tickRateHz ⟨h, ptr, true⟩).count
          (Event.timerDelete h (Ticks.milliseconds tickRateHz 1000)) = 1 ∧
    Timer.drop tickRateHz (Timer.detach ⟨h, ptr, true⟩) = [] ∧
    Timer.timer_callback tickRateHz h ptr = [Event.invokeClosure ptr] := by
  refine ⟨?_, ?_, ?_, ?_, ?_, ?_⟩ <;>
    simp [Timer.spawn, Timer.drop, Timer.detach, Timer.timer_callback,
      List.count_cons, List.count_append]

/-- C9: take_notification and wait_for_notification ignore the task
handle of the Task value they are invoked on: the emitted kernel call
carries no task handle (it acts on the currently executing task) and
the whole outcome is identical for any two receiver handles. -/
theorem C9_notification_ops_ignore_receiver_handle (t1 t2 : Nat)
    (clear : Bool) (wait kernelValue ce cx : Nat) (kernelResult : Option Nat) :
    RtosTask.take_notification t1 clear wait kernelValue
      = RtosTask.take_notification t2 clear wait kernelValue ∧
    (RtosTask.take_notification t1 clear wait kernelValue).1
      = [Event.taskNotifyTake clear wait] ∧
    RtosTask.wait_for_notification t1 ce cx wait kernelResult
      = RtosTask.wait_for_notification t2 ce cx wait kernelResult ∧
    (RtosTask.wait_for_notification t1 ce cx wait kernelResult).1
      = [Event.taskNotifyWait ce cx wait] := by
  simp [RtosTask.take_notification, RtosTask.wait_for_notification,
    glueTaskNotifyTake]

/-- C10: ExclusiveData::lock and ExclusiveData::lock_from_isr always
return Ok with a guard; the error branch is unreachable for every saved
preemption state and every interrupt context. -/
theorem C10_exclusive_data_lock_infallible (previous_state ctx : Nat) :
    (ExclusiveData.lock previous_state).2 = Except.ok previous_state ∧
    (∀ e, (ExclusiveData.lock previous_state).2 ≠ Except.error e) ∧
    (ExclusiveData.lock_from_isr ctx).2 = Except.ok () ∧
    (∀ e, (ExclusiveData.lock_from_isr ctx).2 ≠ Except.error e) := by
  refine ⟨rfl, ?_, rfl, ?_⟩ <;> intro e <;>
    simp [ExclusiveData.lock, ExclusiveData.lock_from_isr,
      CriticalSection.enter]
